import Mathlib

/-!
Shallow embedding of `src/utils.py` (course-popularity analysis).

Modelling conventions:
* A pandas DataFrame of student preferences is modelled column-major: a list
  of named columns, each holding one cell per survey row.  A cell is
  `Option ℚ`: `some q` for a numeric value, `none` for a missing/empty cell
  (pandas `NaN`, which compares unequal to every number).
* Course identifiers are `Int`; the source's `str`/`float`/`int` round-trips
  on integer `CourseID` values are numerically lossless, so comparisons are
  modelled as exact numeric equality in `ℚ`.
* Python `dict` insertion/overwrite semantics (assigning to an existing key
  keeps its original position) are modelled by `dictInsert` on an
  association list.
* `DataFrame.sort_values(ascending=False)` with its default
  `kind='quicksort'` guarantees a non-increasing key order but no particular
  order among tied keys.  The model (`sort_values_desc`) must pick some
  deterministic order and uses input order for ties; no theorem below
  depends on the tie order — the sorted output is only ever used up to
  permutation of its elements.
* File-system and plotting back-ends are opaque: `save_popularity_data`
  returns a description of its effects, `plot_course_popularity` returns the
  data that would be handed to the plotting library, and
  `load_student_preferences` is parameterised by the outcome of the opaque
  Excel read it wraps in try/except.
-/

/-- One row of a course-catalog table: `CourseID` and `name` columns. -/
structure CourseRow where
  CourseID : Int
  name : String
deriving DecidableEq, Repr

/-- A course-catalog DataFrame, as a list of rows in iteration order. -/
abbrev CourseTable := List CourseRow

/-- One column of the preference DataFrame: its name and its cells, one per
survey row.  `none` models a missing/empty cell. -/
structure PrefColumn where
  name : String
  cells : List (Option ℚ)
deriving DecidableEq, Repr

/-- The student-preference DataFrame, as its list of columns. -/
abbrev PreferenceTable := List PrefColumn

/-- `col.startswith('kurz')` from line 56 of the source. -/
def startsWithKurz (s : String) : Bool :=
  s.data.take 4 == ['k', 'u', 'r', 'z']

/-- `int(col[-1])` from line 74: parse the last character of a column name
as a digit; `none` models the `ValueError` caught at line 79. -/
def parseRank (s : String) : Option Nat :=
  match s.data.getLast? with
  | some ch => if ch.isDigit then some (ch.toNat - '0'.toNat) else none
  | none => none

/-- `(preferences_df[col] == float(course_id)).sum()` from line 77: the
number of cells of one column numerically equal to the course identifier.
A `none` (missing) cell matches nothing, like `NaN`. -/
def countMatches (cells : List (Option ℚ)) (id : Int) : Nat :=
  cells.countP (fun cell => cell == some ((id : ℚ)))

/-- The `pref_counts` accumulator of lines 64-69: one bucket per rank 1-4. -/
structure PrefCounts where
  c1 : Nat
  c2 : Nat
  c3 : Nat
  c4 : Nat
deriving DecidableEq, Repr

/-- `sum(pref_counts.values())` (line 85). -/
def PrefCounts.total (pc : PrefCounts) : Nat :=
  pc.c1 + pc.c2 + pc.c3 + pc.c4

/-- `4*pref_counts[1] + 3*pref_counts[2] + 2*pref_counts[3] + 1*pref_counts[4]`
(line 84). -/
def PrefCounts.weighted (pc : PrefCounts) : Nat :=
  4 * pc.c1 + 3 * pc.c2 + 2 * pc.c3 + 1 * pc.c4

/-- Body of the `for col in pref_columns` loop (lines 71-81): parse the rank
from the column name; on failure or a rank outside 1-4 leave the buckets
unchanged, otherwise add the column's match count into the rank's bucket. -/
def tallyStep (id : Int) (acc : PrefCounts) (col : PrefColumn) : PrefCounts :=
  match parseRank col.name with
  | none => acc
  | some r =>
    if r = 1 then { acc with c1 := acc.c1 + countMatches col.cells id }
    else if r = 2 then { acc with c2 := acc.c2 + countMatches col.cells id }
    else if r = 3 then { acc with c3 := acc.c3 + countMatches col.cells id }
    else if r = 4 then { acc with c4 := acc.c4 + countMatches col.cells id }
    else acc

/-- The whole tally loop over the preference columns for one course. -/
def mkCounts (cols : List PrefColumn) (id : Int) : PrefCounts :=
  cols.foldl (fun acc col => tallyStep id acc col) ⟨0, 0, 0, 0⟩

/-- One record of the output table (lines 92-102). -/
structure PopularityRecord where
  course_id : Int
  name : String
  pref_1 : Nat
  pref_2 : Nat
  pref_3 : Nat
  pref_4 : Nat
  total_mentions : Nat
  weighted_score : Nat
  avg_pref : ℚ
deriving DecidableEq, Repr

/-- `courses_df[courses_df['CourseID'] == int(course_id)]['name'].iloc[0]`
(line 90): the name on the first catalog row whose `CourseID` matches.  The
`""` default models the branch that cannot be reached from
`analyze_course_popularity`, where the identifier is always drawn from
`courses_df` itself. -/
def lookupName (courses_df : CourseTable) (id : Int) : String :=
  match courses_df.find? (fun row => row.CourseID == id) with
  | some row => row.name
  | none => ""

/-- The record built at lines 92-102 for one course identifier, including
the source's dead zero-division guard on `avg_pref` (line 101). -/
def makeRecord (cols : List PrefColumn) (courses_df : CourseTable) (id : Int) :
    PopularityRecord :=
  let pc := mkCounts cols id
  { course_id := id
    name := lookupName courses_df id
    pref_1 := pc.c1
    pref_2 := pc.c2
    pref_3 := pc.c3
    pref_4 := pc.c4
    total_mentions := pc.total
    weighted_score := pc.weighted
    avg_pref := if 0 < pc.total then (pc.weighted : ℚ) / (pc.total : ℚ) else 0 }

/-- Python `dict` assignment `d[k] = v`: replace the value at an existing
key in place, else append the new binding at the end. -/
def dictInsert (k : Int) (v : PopularityRecord) :
    List (Int × PopularityRecord) → List (Int × PopularityRecord)
  | [] => [(k, v)]
  | (k', v') :: rest =>
    if k' == k then (k', v) :: rest else (k', v') :: dictInsert k v rest

/-- Insertion of `a` in front of the first element not `le`-above it:
helper for the descending sort. -/
def insertDesc {α : Type} (le : α → α → Bool) (a : α) : List α → List α
  | [] => [a]
  | x :: xs => if le x a then a :: x :: xs else x :: insertDesc le a xs

/-- Descending sort modelling `DataFrame.sort_values(ascending=False)`.
pandas' default `kind='quicksort'` promises only a non-increasing key
order; the order of tied keys is implementation-defined, and this model
fixes it deterministically (ties keep input order).  The theorems below use
the result only up to permutation, so none relies on that choice. -/
def sort_values_desc {α : Type} (le : α → α → Bool) : List α → List α
  | [] => []
  | x :: xs => insertDesc le x (sort_values_desc le xs)

/-- Comparison on the `weighted_score` column. -/
def wsLe (a b : PopularityRecord) : Bool :=
  decide (a.weighted_score ≤ b.weighted_score)

/-- Column schema of the output DataFrame (lines 110-111, and the insertion
order of the dict literal at lines 92-102). -/
def popularity_columns : List String :=
  ["course_id", "name", "pref_1", "pref_2", "pref_3", "pref_4",
   "total_mentions", "weighted_score", "avg_pref"]

/-- The output DataFrame: its column schema and its rows in order. -/
structure PopularityTable where
  columns : List String
  rows : List PopularityRecord
deriving DecidableEq, Repr

/-- One iteration of the `for course_id in courses_df['CourseID']` loop
(lines 62-102): tally the course, and store its record in the
`course_popularity` dict when `total_mentions > 0`. -/
def popStep (cols : List PrefColumn) (courses_df : CourseTable)
    (d : List (Int × PopularityRecord)) (row : CourseRow) :
    List (Int × PopularityRecord) :=
  if 0 < (mkCounts cols row.CourseID).total then
    dictInsert row.CourseID (makeRecord cols courses_df row.CourseID) d
  else d

/-- `analyze_course_popularity` (lines 43-111) after the preference columns
have been selected: loop over the catalog rows building the
`course_popularity` dict, keep only courses with `total_mentions > 0`, then
either sort by `weighted_score` descending or return the empty frame with
the declared columns. -/
def analyzeFromColumns (cols : List PrefColumn) (courses_df : CourseTable) :
    PopularityTable :=
  let course_popularity := courses_df.foldl (popStep cols courses_df) []
  if course_popularity.isEmpty then
    { columns := popularity_columns, rows := [] }
  else
    { columns := popularity_columns
      rows := sort_values_desc wsLe (course_popularity.map Prod.snd) }

/-- `analyze_course_popularity(preferences_df, courses_df)`: select the
columns whose names start with `'kurz'` (line 56), then aggregate. -/
def analyze_course_popularity (preferences_df : PreferenceTable)
    (courses_df : CourseTable) : PopularityTable :=
  analyzeFromColumns (preferences_df.filter (fun col => startsWithKurz col.name))
    courses_df

/-- Total mentions of one course across all preference columns, as the
source computes it (line 85) — used to state the emission filter. -/
def courseTotalMentions (preferences_df : PreferenceTable) (id : Int) : Nat :=
  (mkCounts (preferences_df.filter (fun col => startsWithKurz col.name)) id).total

/-- Number of cells of rank-`k` preference columns numerically equal to a
course identifier: the per-rank mention count the spec describes. -/
def mentionCount (preferences_df : PreferenceTable) (k : Nat) (id : Int) : Nat :=
  ((preferences_df.filter
      (fun col => startsWithKurz col.name
        && decide (parseRank col.name = some k))).map
    (fun col => countMatches col.cells id)).sum

/-- First occurrences of each value, in order: the key iteration order of a
Python dict filled left to right. -/
def firstOccs : List Int → List Int
  | [] => []
  | x :: xs => x :: (firstOccs xs).filter (fun y => !(y == x))

/-- Set of courses that get a record: the distinct identifiers, in catalog
iteration order, whose total mention count is positive. -/
def emittedIds (cols : List PrefColumn) (courses_df : CourseTable) : List Int :=
  firstOccs ((courses_df.map CourseRow.CourseID).filter
    (fun id => decide (0 < (mkCounts cols id).total)))

/-- Python-level errors surfaced by the embedded functions. -/
inductive PyError where
  | attributeError (attr : String)
  | keyError (key : String)
deriving DecidableEq, Repr

/-- `load_student_preferences` (lines 29-39): the opaque Excel read is the
parameter; the try/except turns any failure into `none` (the source's
`return None`, despite its comment about dummy data). -/
def load_student_preferences (readResult : Except String PreferenceTable) :
    Option PreferenceTable :=
  match readResult with
  | .ok preferences_df => some preferences_df
  | .error _ => none

/-- Dynamic behaviour of `analyze_course_popularity` on an arbitrary
(possibly absent) preferences argument: `None` has no `.columns`
attribute, so line 56 raises `AttributeError` before anything else runs. -/
def analyzeChecked :
    Option PreferenceTable → CourseTable → Except PyError PopularityTable
  | none, _ => .error (.attributeError "columns")
  | some preferences_df, courses_df =>
    .ok (analyze_course_popularity preferences_df courses_df)

/-- Effects and return value of one `save_popularity_data` call. -/
structure SaveOutcome where
  dirCreated : Option String
  fileWritten : Option (String × List PopularityRecord)
  returned : Option String
deriving DecidableEq, Repr

/-- `Path(dir) / filename`, with paths modelled as strings. -/
def pathJoin (dir file : String) : String :=
  if dir = "." then file else dir ++ "/" ++ file

/-- `save_popularity_data` (lines 154-188): on an empty frame print a
warning and return `None`; otherwise sort, ensure the output directory,
write `course_popularity_analysis[_<year>].csv` — and fall off the end of
the function, so the returned value is `None` here as well. -/
def save_popularity_data (popularity_df : PopularityTable)
    (year : Option String) (output_dir : Option String) : SaveOutcome :=
  if popularity_df.rows.isEmpty then
    { dirCreated := none, fileWritten := none, returned := none }
  else
    let sorted_rows := sort_values_desc wsLe popularity_df.rows
    let output_path := match output_dir with
      | some d => if d = "" then "." else d
      | none => "."
    let year_suffix := match year with
      | some y => if y = "" then "" else "_" ++ y
      | none => ""
    let filename := "course_popularity_analysis" ++ year_suffix ++ ".csv"
    { dirCreated := match output_dir with
        | some d => if d = "" then none else some d
        | none => none
      fileWritten := some (pathJoin output_path filename, sorted_rows)
      returned := none }

/-- What `plot_course_popularity` hands to the opaque plotting back-end. -/
inductive PlotResult where
  | noData
  | chart (top bottom : List PopularityRecord) (metric : String) (top_n : Nat)
deriving DecidableEq, Repr

/-- Comparison of two records on the named column, for
`sort_values(by=metric)`.  Only called on names in `popularity_columns`. -/
def metricLe (metric : String) (a b : PopularityRecord) : Bool :=
  if metric = "course_id" then decide (a.course_id ≤ b.course_id)
  else if metric = "name" then !decide (b.name < a.name)
  else if metric = "pref_1" then decide (a.pref_1 ≤ b.pref_1)
  else if metric = "pref_2" then decide (a.pref_2 ≤ b.pref_2)
  else if metric = "pref_3" then decide (a.pref_3 ≤ b.pref_3)
  else if metric = "pref_4" then decide (a.pref_4 ≤ b.pref_4)
  else if metric = "total_mentions" then decide (a.total_mentions ≤ b.total_mentions)
  else if metric = "weighted_score" then decide (a.weighted_score ≤ b.weighted_score)
  else if metric = "avg_pref" then decide (a.avg_pref ≤ b.avg_pref)
  else true

/-- `plot_course_popularity` (lines 115-151): empty frame → print a
diagnostic and return (no figure, no error); otherwise
`sort_values(by=metric, ascending=False)` raises `KeyError` when `metric`
is not a column, else the top and bottom `top_n` rows go to the opaque
plotting library. -/
def plot_course_popularity (popularity_df : PopularityTable)
    (metric : String) (top_n : Nat) : Except PyError PlotResult :=
  if popularity_df.rows.isEmpty then .ok .noData
  else if metric ∈ popularity_df.columns then
    let sorted_rows := sort_values_desc (metricLe metric) popularity_df.rows
    .ok (.chart (sorted_rows.take top_n)
      (sorted_rows.drop (sorted_rows.length - top_n)) metric top_n)
  else .error (.keyError metric)

/-! ### Properties of the stable descending sort -/

theorem insertDesc_perm {α : Type} (le : α → α → Bool) (a : α) :
    ∀ l : List α, (insertDesc le a l).Perm (a :: l)
  | [] => List.Perm.refl _
  | x :: xs => by
    unfold insertDesc
    by_cases h : le x a = true
    · simp [h]
    · simp only [h, if_false]
      exact ((insertDesc_perm le a xs).cons x).trans (List.Perm.swap a x xs)

theorem sort_values_desc_perm {α : Type} (le : α → α → Bool) :
    ∀ l : List α, (sort_values_desc le l).Perm l
  | [] => List.Perm.refl _
  | x :: xs => by
    unfold sort_values_desc
    exact (insertDesc_perm le x _).trans ((sort_values_desc_perm le xs).cons x)

/-! ### First-occurrence order of Python dict keys -/

theorem mem_firstOccs (a : Int) : ∀ l : List Int, a ∈ firstOccs l ↔ a ∈ l
  | [] => Iff.rfl
  | x :: xs => by
    unfold firstOccs
    by_cases hax : a = x
    · subst hax
      simp
    · simp only [List.mem_cons, hax, false_or]
      rw [List.mem_filter]
      simp only [Bool.not_eq_eq_eq_not, Bool.not_true, beq_eq_false_iff_ne, ne_eq, hax,
        not_false_eq_true, and_true]
      exact mem_firstOccs a xs

theorem firstOccs_nodup : ∀ l : List Int, (firstOccs l).Nodup
  | [] => List.nodup_nil
  | x :: xs => by
    unfold firstOccs
    refine List.nodup_cons.mpr ⟨?_, (firstOccs_nodup xs).filter _⟩
    intro hx
    have := (List.mem_filter.mp hx).2
    simp at this

theorem firstOccs_cons (x : Int) (xs : List Int) :
    firstOccs (x :: xs) = x :: (firstOccs xs).filter (fun y => !(y == x)) :=
  rfl

theorem firstOccs_filter (q : Int → Bool) :
    ∀ l : List Int, firstOccs (l.filter q) = (firstOccs l).filter q
  | [] => rfl
  | x :: xs => by
    rw [List.filter_cons]
    by_cases hq : q x = true
    · rw [if_pos hq, firstOccs_cons, firstOccs_cons, firstOccs_filter q xs,
        List.filter_cons, if_pos hq, List.filter_filter, List.filter_filter]
      exact congrArg _ (List.filter_congr fun y _ => Bool.and_comm _ _)
    · rw [if_neg hq, firstOccs_cons, firstOccs_filter q xs, List.filter_cons,
        if_neg hq, List.filter_filter]
      refine List.filter_congr ?_
      intro y _
      by_cases hyx : y = x
      · subst hyx
        simp [hq]
      · simp [hyx]

/-! ### Characterising the `course_popularity` dict -/

theorem dictInsert_map_self (f : Int → PopularityRecord) (k : Int) :
    ∀ keys : List Int, k ∈ keys →
      dictInsert k (f k) (keys.map fun a => (a, f a)) =
        keys.map fun a => (a, f a)
  | [], h => absurd h (List.not_mem_nil k)
  | x :: keys, h => by
    rw [List.map_cons]
    unfold dictInsert
    by_cases hxk : x = k
    · subst hxk
      simp
    · have : (x == k) = false := by simp [hxk]
      simp only [this, Bool.false_eq_true, if_false]
      rw [List.mem_cons] at h
      rcases h with rfl | h
      · exact absurd rfl hxk
      · rw [dictInsert_map_self f k keys h]

theorem dictInsert_map_append (f : Int → PopularityRecord) (k : Int)
    (v : PopularityRecord) :
    ∀ keys : List Int, k ∉ keys →
      dictInsert k v (keys.map fun a => (a, f a)) =
        (keys.map fun a => (a, f a)) ++ [(k, v)]
  | [], _ => rfl
  | x :: keys, h => by
    rw [List.map_cons]
    unfold dictInsert
    have hxk : x ≠ k := fun hxk => h (hxk ▸ List.mem_cons_self x keys)
    have : (x == k) = false := by simp [hxk]
    simp only [this, Bool.false_eq_true, if_false]
    rw [dictInsert_map_append f k v keys (fun hk => h (List.mem_cons_of_mem x hk)),
      List.cons_append]

theorem foldl_popStep (cols : List PrefColumn) (courses_df : CourseTable) :
    ∀ (l : List CourseRow) (keys : List Int),
      l.foldl (popStep cols courses_df)
          (keys.map fun k => (k, makeRecord cols courses_df k)) =
        (keys ++ (firstOccs ((l.map CourseRow.CourseID).filter
              (fun id => decide (0 < (mkCounts cols id).total)))).filter
            (fun id => !decide (id ∈ keys))).map
          fun k => (k, makeRecord cols courses_df k)
  | [], keys => by simp [firstOccs]
  | row :: l, keys => by
    rw [List.foldl_cons, List.map_cons, List.filter_cons]
    by_cases hc : 0 < (mkCounts cols row.CourseID).total
    · rw [if_pos (by simpa using hc)]
      have hstep : popStep cols courses_df
          (keys.map fun k => (k, makeRecord cols courses_df k)) row =
          if row.CourseID ∈ keys then
            keys.map fun k => (k, makeRecord cols courses_df k)
          else (keys ++ [row.CourseID]).map
            fun k => (k, makeRecord cols courses_df k) := by
        unfold popStep
        rw [if_pos hc]
        by_cases hmem : row.CourseID ∈ keys
        · rw [if_pos hmem, dictInsert_map_self _ _ _ hmem]
        · rw [if_neg hmem, dictInsert_map_append _ _ _ _ hmem, List.map_append,
            List.map_singleton]
      rw [hstep]
      by_cases hmem : row.CourseID ∈ keys
      · rw [if_pos hmem, foldl_popStep cols courses_df l keys, firstOccs_cons,
          List.filter_cons]
        have hk : (!decide (row.CourseID ∈ keys)) = false := by simp [hmem]
        rw [hk, if_neg (by simp), List.filter_filter]
        refine congrArg _ (congrArg (keys ++ ·) (List.filter_congr ?_))
        intro y _
        by_cases hyk : y ∈ keys
        · simp [hyk]
        · have : y ≠ row.CourseID := fun h => hyk (h ▸ hmem)
          simp [hyk, this]
      · rw [if_neg hmem, foldl_popStep cols courses_df l (keys ++ [row.CourseID])]
        refine congrArg _ ?_
        rw [firstOccs_cons, List.filter_cons,
          if_pos (show (!decide (row.CourseID ∈ keys)) = true by simp [hmem]),
          List.filter_filter, List.append_assoc, List.singleton_append]
        refine congrArg _ (congrArg _ (List.filter_congr ?_))
        intro y _
        by_cases hyk : y ∈ keys
        · simp [hyk]
        · by_cases hye : y = row.CourseID <;> simp [hyk, hye]
    · rw [if_neg (by simpa using hc)]
      have hstep : popStep cols courses_df
          (keys.map fun k => (k, makeRecord cols courses_df k)) row =
          keys.map fun k => (k, makeRecord cols courses_df k) := by
        unfold popStep
        rw [if_neg hc]
      rw [hstep, foldl_popStep cols courses_df l keys]

theorem analyzeDict_eq (cols : List PrefColumn) (courses_df : CourseTable) :
    courses_df.foldl (popStep cols courses_df) [] =
      (emittedIds cols courses_df).map
        fun k => (k, makeRecord cols courses_df k) := by
  have h := foldl_popStep cols courses_df courses_df []
  rw [List.map_nil] at h
  rw [h, List.nil_append, emittedIds]
  refine congrArg _ (List.filter_eq_self.mpr ?_)
  intro a _
  simp

theorem analyzeFromColumns_rows (cols : List PrefColumn)
    (courses_df : CourseTable) :
    (analyzeFromColumns cols courses_df).rows =
      sort_values_desc wsLe
        ((emittedIds cols courses_df).map (makeRecord cols courses_df)) := by
  unfold analyzeFromColumns
  rw [analyzeDict_eq]
  by_cases h : emittedIds cols courses_df = []
  · simp [h, sort_values_desc]
  · have : ((emittedIds cols courses_df).map
        fun k => (k, makeRecord cols courses_df k)).isEmpty = false := by
      simp [List.isEmpty_iff, h]
    simp only [this, Bool.false_eq_true, if_false, List.map_map]
    rfl

theorem analyzeFromColumns_columns (cols : List PrefColumn)
    (courses_df : CourseTable) :
    (analyzeFromColumns cols courses_df).columns = popularity_columns := by
  unfold analyzeFromColumns
  by_cases h : (courses_df.foldl (popStep cols courses_df) []).isEmpty <;>
    simp [h]

theorem mem_emittedIds (cols : List PrefColumn) (courses_df : CourseTable)
    (id : Int) :
    id ∈ emittedIds cols courses_df ↔
      id ∈ courses_df.map CourseRow.CourseID ∧ 0 < (mkCounts cols id).total := by
  rw [emittedIds, mem_firstOccs, List.mem_filter, decide_eq_true_eq]

theorem mem_analyze_rows (cols : List PrefColumn) (courses_df : CourseTable)
    (r : PopularityRecord) :
    r ∈ (analyzeFromColumns cols courses_df).rows ↔
      ∃ id ∈ emittedIds cols courses_df, r = makeRecord cols courses_df id := by
  rw [analyzeFromColumns_rows,
    (sort_values_desc_perm wsLe _).mem_iff, List.mem_map]
  constructor
  · rintro ⟨id, hid, rfl⟩
    exact ⟨id, hid, rfl⟩
  · rintro ⟨id, hid, rfl⟩
    exact ⟨id, hid, rfl⟩

/-! ### Per-rank bucket contents of the tally loop -/

theorem tallyStep_c1 (id : Int) (acc : PrefCounts) (col : PrefColumn) :
    (tallyStep id acc col).c1 =
      if parseRank col.name = some 1 then acc.c1 + countMatches col.cells id
      else acc.c1 := by
  unfold tallyStep
  rcases hp : parseRank col.name with _ | r
  · simp [hp]
  · simp only [hp, Option.some.injEq]
    by_cases h1 : r = 1
    · simp [h1]
    · by_cases h2 : r = 2
      · simp [h1, h2]
      · by_cases h3 : r = 3
        · simp [h1, h2, h3]
        · by_cases h4 : r = 4 <;> simp [h1, h2, h3, h4]

theorem tallyStep_c2 (id : Int) (acc : PrefCounts) (col : PrefColumn) :
    (tallyStep id acc col).c2 =
      if parseRank col.name = some 2 then acc.c2 + countMatches col.cells id
      else acc.c2 := by
  unfold tallyStep
  rcases hp : parseRank col.name with _ | r
  · simp [hp]
  · simp only [hp, Option.some.injEq]
    by_cases h1 : r = 1
    · simp [h1]
    · by_cases h2 : r = 2
      · simp [h1, h2]
      · by_cases h3 : r = 3
        · simp [h1, h2, h3]
        · by_cases h4 : r = 4 <;> simp [h1, h2, h3, h4]

theorem tallyStep_c3 (id : Int) (acc : PrefCounts) (col : PrefColumn) :
    (tallyStep id acc col).c3 =
      if parseRank col.name = some 3 then acc.c3 + countMatches col.cells id
      else acc.c3 := by
  unfold tallyStep
  rcases hp : parseRank col.name with _ | r
  · simp [hp]
  · simp only [hp, Option.some.injEq]
    by_cases h1 : r = 1
    · simp [h1]
    · by_cases h2 : r = 2
      · simp [h1, h2]
      · by_cases h3 : r = 3
        · simp [h1, h2, h3]
        · by_cases h4 : r = 4 <;> simp [h1, h2, h3, h4]

theorem tallyStep_c4 (id : Int) (acc : PrefCounts) (col : PrefColumn) :
    (tallyStep id acc col).c4 =
      if parseRank col.name = some 4 then acc.c4 + countMatches col.cells id
      else acc.c4 := by
  unfold tallyStep
  rcases hp : parseRank col.name with _ | r
  · simp [hp]
  · simp only [hp, Option.some.injEq]
    by_cases h1 : r = 1
    · simp [h1]
    · by_cases h2 : r = 2
      · simp [h1, h2]
      · by_cases h3 : r = 3
        · simp [h1, h2, h3]
        · by_cases h4 : r = 4 <;> simp [h1, h2, h3, h4]

theorem foldl_tally_c1 (id : Int) :
    ∀ (cols : List PrefColumn) (acc : PrefCounts),
      (cols.foldl (fun a c => tallyStep id a c) acc).c1 =
        acc.c1 + ((cols.filter (fun col => decide (parseRank col.name = some 1))).map
          (fun col => countMatches col.cells id)).sum
  | [], acc => by simp
  | col :: cols, acc => by
    rw [List.foldl_cons, foldl_tally_c1 id cols _, tallyStep_c1, List.filter_cons]
    by_cases hp : parseRank col.name = some 1
    · simp [hp]
      omega
    · simp [hp]

theorem foldl_tally_c2 (id : Int) :
    ∀ (cols : List PrefColumn) (acc : PrefCounts),
      (cols.foldl (fun a c => tallyStep id a c) acc).c2 =
        acc.c2 + ((cols.filter (fun col => decide (parseRank col.name = some 2))).map
          (fun col => countMatches col.cells id)).sum
  | [], acc => by simp
  | col :: cols, acc => by
    rw [List.foldl_cons, foldl_tally_c2 id cols _, tallyStep_c2, List.filter_cons]
    by_cases hp : parseRank col.name = some 2
    · simp [hp]
      omega
    · simp [hp]

theorem foldl_tally_c3 (id : Int) :
    ∀ (cols : List PrefColumn) (acc : PrefCounts),
      (cols.foldl (fun a c => tallyStep id a c) acc).c3 =
        acc.c3 + ((cols.filter (fun col => decide (parseRank col.name = some 3))).map
          (fun col => countMatches col.cells id)).sum
  | [], acc => by simp
  | col :: cols, acc => by
    rw [List.foldl_cons, foldl_tally_c3 id cols _, tallyStep_c3, List.filter_cons]
    by_cases hp : parseRank col.name = some 3
    · simp [hp]
      omega
    · simp [hp]

theorem foldl_tally_c4 (id : Int) :
    ∀ (cols : List PrefColumn) (acc : PrefCounts),
      (cols.foldl (fun a c => tallyStep id a c) acc).c4 =
        acc.c4 + ((cols.filter (fun col => decide (parseRank col.name = some 4))).map
          (fun col => countMatches col.cells id)).sum
  | [], acc => by simp
  | col :: cols, acc => by
    rw [List.foldl_cons, foldl_tally_c4 id cols _, tallyStep_c4, List.filter_cons]
    by_cases hp : parseRank col.name = some 4
    · simp [hp]
      omega
    · simp [hp]

/-- The rank-`k` bucket of the tally over the kurz-filtered columns is the
spec-side mention count, for each of the four buckets. -/
theorem mkCounts_eq_mentionCount (preferences_df : PreferenceTable) (id : Int) :
    (mkCounts (preferences_df.filter (fun col => startsWithKurz col.name)) id).c1
        = mentionCount preferences_df 1 id
    ∧ (mkCounts (preferences_df.filter (fun col => startsWithKurz col.name)) id).c2
        = mentionCount preferences_df 2 id
    ∧ (mkCounts (preferences_df.filter (fun col => startsWithKurz col.name)) id).c3
        = mentionCount preferences_df 3 id
    ∧ (mkCounts (preferences_df.filter (fun col => startsWithKurz col.name)) id).c4
        = mentionCount preferences_df 4 id := by
  unfold mkCounts mentionCount
  rw [foldl_tally_c1, foldl_tally_c2, foldl_tally_c3, foldl_tally_c4,
    List.filter_filter, List.filter_filter, List.filter_filter,
    List.filter_filter]
  refine ⟨?_, ?_, ?_, ?_⟩
  all_goals
    dsimp only
    rw [Nat.zero_add]
    exact congrArg List.sum
      (congrArg (List.map fun (col : PrefColumn) => countMatches col.cells id)
        (List.filter_congr fun col _ => Bool.and_comm _ _))

/-! ### Columns the tally loop skips, and congruence of the analysis -/

theorem tallyStep_of_parseRank_none (id : Int) (acc : PrefCounts)
    (col : PrefColumn) (h : parseRank col.name = none) :
    tallyStep id acc col = acc := by
  unfold tallyStep
  rw [h]

theorem tallyStep_of_rank_out (id : Int) (acc : PrefCounts) (col : PrefColumn)
    (k : Nat) (h : parseRank col.name = some k)
    (hk : k ∉ ([1, 2, 3, 4] : List Nat)) : tallyStep id acc col = acc := by
  unfold tallyStep
  rw [h]
  simp only [List.mem_cons, List.not_mem_nil, or_false, not_or] at hk
  obtain ⟨h1, h2, h3, h4⟩ := hk
  simp [h1, h2, h3, h4]

theorem countMatches_none_cell (cs₁ cs₂ : List (Option ℚ)) (id : Int) :
    countMatches (cs₁ ++ none :: cs₂) id = countMatches (cs₁ ++ cs₂) id := by
  unfold countMatches
  rw [List.countP_append, List.countP_cons, List.countP_append]
  simp

theorem mkCounts_skip (id : Int) (col : PrefColumn)
    (hcol : ∀ acc, tallyStep id acc col = acc) (l₁ l₂ : List PrefColumn) :
    mkCounts (l₁ ++ col :: l₂) id = mkCounts (l₁ ++ l₂) id := by
  unfold mkCounts
  rw [List.foldl_append, List.foldl_append, List.foldl_cons, hcol]

theorem mkCounts_congr_col (id : Int) (col col' : PrefColumn)
    (h : ∀ acc, tallyStep id acc col = tallyStep id acc col')
    (l₁ l₂ : List PrefColumn) :
    mkCounts (l₁ ++ col :: l₂) id = mkCounts (l₁ ++ col' :: l₂) id := by
  unfold mkCounts
  rw [List.foldl_append, List.foldl_append, List.foldl_cons, List.foldl_cons, h]

theorem analyzeFromColumns_congr (cols cols' : List PrefColumn)
    (courses_df : CourseTable)
    (h : ∀ id, mkCounts cols id = mkCounts cols' id) :
    analyzeFromColumns cols courses_df = analyzeFromColumns cols' courses_df := by
  have hrec : ∀ id, makeRecord cols courses_df id = makeRecord cols' courses_df id := by
    intro id
    unfold makeRecord
    rw [h]
  have hstep : ∀ d row, popStep cols courses_df d row = popStep cols' courses_df d row := by
    intro d row
    unfold popStep
    rw [h, hrec]
  unfold analyzeFromColumns
  rw [List.foldl_ext (popStep cols courses_df) (popStep cols' courses_df) []
    (fun d row _ => hstep d row)]

/-! ### The claims -/

/-- C1: every record emitted by `analyze_course_popularity` has
`weighted_score = 4·pref_1 + 3·pref_2 + 2·pref_3 + 1·pref_4` and
`total_mentions = pref_1 + pref_2 + pref_3 + pref_4`, where `pref_k` is the
number of cells of rank-`k` preference columns numerically equal to the
record's course identifier. -/
theorem spec_C1 (preferences_df : PreferenceTable) (courses_df : CourseTable)
    (r : PopularityRecord)
    (hr : r ∈ (analyze_course_popularity preferences_df courses_df).rows) :
    r.weighted_score =
        4 * r.pref_1 + 3 * r.pref_2 + 2 * r.pref_3 + 1 * r.pref_4
    ∧ r.total_mentions = r.pref_1 + r.pref_2 + r.pref_3 + r.pref_4
    ∧ r.pref_1 = mentionCount preferences_df 1 r.course_id
    ∧ r.pref_2 = mentionCount preferences_df 2 r.course_id
    ∧ r.pref_3 = mentionCount preferences_df 3 r.course_id
    ∧ r.pref_4 = mentionCount preferences_df 4 r.course_id := by
  simp only [analyze_course_popularity] at hr
  rw [mem_analyze_rows] at hr
  obtain ⟨id, _, rfl⟩ := hr
  obtain ⟨h1, h2, h3, h4⟩ := mkCounts_eq_mentionCount preferences_df id
  exact ⟨rfl, rfl, h1, h2, h3, h4⟩

/-- C7: every emitted record has `total_mentions > 0` (so the source's
zero-division guard is unreachable on emitted records) and
`avg_pref = weighted_score / total_mentions` exactly. -/
theorem spec_C7 (preferences_df : PreferenceTable) (courses_df : CourseTable)
    (r : PopularityRecord)
    (hr : r ∈ (analyze_course_popularity preferences_df courses_df).rows) :
    0 < r.total_mentions
    ∧ r.avg_pref = (r.weighted_score : ℚ) / (r.total_mentions : ℚ) := by
  simp only [analyze_course_popularity] at hr
  rw [mem_analyze_rows] at hr
  obtain ⟨id, hid, rfl⟩ := hr
  have hpos : 0 < (mkCounts
      (preferences_df.filter fun col => startsWithKurz col.name) id).total :=
    ((mem_emittedIds _ _ id).mp hid).2
  refine ⟨hpos, ?_⟩
  show (if 0 < (mkCounts
      (preferences_df.filter fun col => startsWithKurz col.name) id).total
    then _ else (0 : ℚ)) = _
  rw [if_pos hpos]
  rfl

/-- C10: the records of the output table have pairwise distinct
`course_id` values, whatever the preference and course tables contain. -/
theorem spec_C10 (preferences_df : PreferenceTable) (courses_df : CourseTable) :
    ((analyze_course_popularity preferences_df courses_df).rows.map
      PopularityRecord.course_id).Nodup := by
  simp only [analyze_course_popularity]
  rw [analyzeFromColumns_rows]
  have hperm := (sort_values_desc_perm wsLe
    ((emittedIds (preferences_df.filter fun col => startsWithKurz col.name)
      courses_df).map
      (makeRecord (preferences_df.filter fun col => startsWithKurz col.name)
        courses_df))).map PopularityRecord.course_id
  have hmap : ((emittedIds
      (preferences_df.filter fun col => startsWithKurz col.name)
      courses_df).map (PopularityRecord.course_id ∘
        makeRecord (preferences_df.filter fun col => startsWithKurz col.name)
          courses_df)) =
      emittedIds (preferences_df.filter fun col => startsWithKurz col.name)
        courses_df :=
    List.map_id'' (fun id => rfl) _
  rw [hperm.nodup_iff, List.map_map, hmap]
  exact firstOccs_nodup _

/-- C3: a course gets a record iff it occurs in the courses table and its
total mention count is positive; every emitted record has
`total_mentions ≥ 1` and a `course_id` drawn from the courses table. -/
theorem spec_C3 (preferences_df : PreferenceTable) (courses_df : CourseTable) :
    (∀ id : Int,
      (∃ r ∈ (analyze_course_popularity preferences_df courses_df).rows,
          r.course_id = id) ↔
        (id ∈ courses_df.map CourseRow.CourseID
          ∧ 0 < courseTotalMentions preferences_df id))
    ∧ ∀ r ∈ (analyze_course_popularity preferences_df courses_df).rows,
        1 ≤ r.total_mentions
        ∧ r.course_id ∈ courses_df.map CourseRow.CourseID := by
  constructor
  · intro id
    simp only [analyze_course_popularity]
    constructor
    · rintro ⟨r, hr, rfl⟩
      rw [mem_analyze_rows] at hr
      obtain ⟨id', hid', rfl⟩ := hr
      exact (mem_emittedIds _ _ id').mp hid'
    · rintro ⟨hmem, hpos⟩
      refine ⟨makeRecord
        (preferences_df.filter fun col => startsWithKurz col.name)
        courses_df id, ?_, rfl⟩
      rw [mem_analyze_rows]
      exact ⟨id, (mem_emittedIds _ _ id).mpr ⟨hmem, hpos⟩, rfl⟩
  · intro r hr
    simp only [analyze_course_popularity] at hr
    rw [mem_analyze_rows] at hr
    obtain ⟨id, hid, rfl⟩ := hr
    have h := (mem_emittedIds _ _ id).mp hid
    exact ⟨h.2, h.1⟩

/-- C8: when no course of the courses table has a positive mention count,
the output is the empty table still carrying the declared column schema. -/
theorem spec_C8 (preferences_df : PreferenceTable) (courses_df : CourseTable)
    (h : ∀ id ∈ courses_df.map CourseRow.CourseID,
      courseTotalMentions preferences_df id = 0) :
    analyze_course_popularity preferences_df courses_df =
      { columns := popularity_columns, rows := [] } := by
  simp only [analyze_course_popularity]
  unfold analyzeFromColumns
  rw [analyzeDict_eq]
  have hnil : emittedIds
      (preferences_df.filter fun col => startsWithKurz col.name) courses_df
      = [] := by
    unfold emittedIds
    rw [List.filter_eq_nil_iff.mpr ?_]
    · rfl
    · intro a ha
      simp only [decide_eq_true_eq]
      have h0 : (mkCounts
          (preferences_df.filter fun col => startsWithKurz col.name) a).total
          = 0 := h a ha
      omega
  rw [hnil]
  simp

/-- C6: a kurz-prefixed column whose last character is not a digit is
skipped; a column whose parsed rank is outside 1-4 is skipped; a column not
starting with the preference prefix never affects the result; and an empty
(missing) preference cell contributes nothing.  In each case the analysis
result is unchanged and no error is raised. -/
theorem spec_C6 (p₁ p₂ : PreferenceTable) (courses_df : CourseTable) :
    (∀ col : PrefColumn, startsWithKurz col.name = true →
      parseRank col.name = none →
      analyze_course_popularity (p₁ ++ col :: p₂) courses_df =
        analyze_course_popularity (p₁ ++ p₂) courses_df)
    ∧ (∀ (col : PrefColumn) (k : Nat), parseRank col.name = some k →
      k ∉ ([1, 2, 3, 4] : List Nat) →
      analyze_course_popularity (p₁ ++ col :: p₂) courses_df =
        analyze_course_popularity (p₁ ++ p₂) courses_df)
    ∧ (∀ col : PrefColumn, startsWithKurz col.name = false →
      analyze_course_popularity (p₁ ++ col :: p₂) courses_df =
        analyze_course_popularity (p₁ ++ p₂) courses_df)
    ∧ ∀ (nm : String) (cs₁ cs₂ : List (Option ℚ)),
      analyze_course_popularity
          (p₁ ++ (⟨nm, cs₁ ++ none :: cs₂⟩ : PrefColumn) :: p₂) courses_df =
        analyze_course_popularity
          (p₁ ++ (⟨nm, cs₁ ++ cs₂⟩ : PrefColumn) :: p₂) courses_df := by
  refine ⟨?_, ?_, ?_, ?_⟩
  · intro col hkurz hnone
    simp only [analyze_course_popularity, List.filter_append, List.filter_cons]
    rw [if_pos hkurz]
    exact analyzeFromColumns_congr _ _ courses_df fun id =>
      mkCounts_skip id col
        (fun acc => tallyStep_of_parseRank_none id acc col hnone) _ _
  · intro col k hk hkout
    simp only [analyze_course_popularity, List.filter_append, List.filter_cons]
    by_cases hkurz : startsWithKurz col.name = true
    · rw [if_pos hkurz]
      exact analyzeFromColumns_congr _ _ courses_df fun id =>
        mkCounts_skip id col
          (fun acc => tallyStep_of_rank_out id acc col k hk hkout) _ _
    · rw [if_neg hkurz]
  · intro col hkurz
    simp only [analyze_course_popularity, List.filter_append, List.filter_cons]
    rw [if_neg (by simp [hkurz])]
  · intro nm cs₁ cs₂
    simp only [analyze_course_popularity, List.filter_append, List.filter_cons]
    by_cases hkurz : startsWithKurz nm = true
    · rw [if_pos hkurz, if_pos hkurz]
      refine analyzeFromColumns_congr _ _ courses_df fun id =>
        mkCounts_congr_col id _ _ ?_ _ _
      intro acc
      unfold tallyStep
      dsimp only
      rw [countMatches_none_cell cs₁ cs₂ id]
    · rw [if_neg hkurz, if_neg hkurz]

/-- C4 (code bug): a failed preference load does return the absent value,
but `analyze_course_popularity` applied to it raises `AttributeError` at
`preferences_df.columns` (line 56) instead of returning an empty table
with the declared schema. -/
theorem spec_C4 (msg : String) (courses_df : CourseTable) :
    load_student_preferences (Except.error msg) = none
    ∧ analyzeChecked (load_student_preferences (Except.error msg)) courses_df
        = Except.error (PyError.attributeError "columns") :=
  ⟨rfl, rfl⟩

/-- A sample record for exercising the reporter functions. -/
def recSample : PopularityRecord :=
  ⟨7, "Sample", 1, 0, 0, 0, 1, 4, ((4 : ℕ) : ℚ) / ((1 : ℕ) : ℚ)⟩

/-- C5 (code bug): on a non-empty table `save_popularity_data` creates the
output directory and writes `course_popularity_analysis_<year>.csv` there,
but returns `None` (its body ends without a `return`), not the path its
docstring promises; on an empty table it writes nothing and returns
`None`. -/
theorem spec_C5 :
    save_popularity_data
        { columns := popularity_columns, rows := [recSample] }
        (some "2024") (some "output") =
      { dirCreated := some "output"
        fileWritten := some
          ("output/course_popularity_analysis_2024.csv", [recSample])
        returned := none }
    ∧ save_popularity_data
        { columns := popularity_columns, rows := [] }
        (some "2024") (some "output") =
      { dirCreated := none, fileWritten := none, returned := none } :=
  ⟨rfl, rfl⟩

/-- C9: on a non-empty popularity table with the declared schema, a metric
that is not an attribute of `PopularityRecord` makes
`plot_course_popularity` raise a key/attribute-not-found error; on an
empty table it is a no-op for any metric. -/
theorem spec_C9 (popularity_df : PopularityTable) (metric : String)
    (top_n : Nat) :
    (popularity_df.columns = popularity_columns → popularity_df.rows ≠ [] →
      metric ∉ popularity_columns →
      plot_course_popularity popularity_df metric top_n =
        Except.error (PyError.keyError metric))
    ∧ (popularity_df.rows = [] →
      plot_course_popularity popularity_df metric top_n =
        Except.ok PlotResult.noData) := by
  constructor
  · intro hcols hrows hmetric
    unfold plot_course_popularity
    rw [if_neg (fun h => hrows (List.isEmpty_iff.mp h)),
      if_neg (fun hm => hmetric (hcols ▸ hm))]
  · intro hrows
    unfold plot_course_popularity
    rw [if_pos (List.isEmpty_iff.mpr hrows)]

/-! ### Concrete scenario and witnesses -/

/-- Preference table of the worked scenario: two preference columns of
ranks 1 and 2, three survey rows, one missing cell. -/
def pScen : PreferenceTable :=
  [⟨"kurz1", [some 1, some 1, some 2]⟩, ⟨"kurz2", [some 1, none, none]⟩]

/-- Course catalog of the worked scenario. -/
def cScen : CourseTable := [⟨1, "Algebra"⟩, ⟨2, "Biology"⟩]

/-- Expected output record for course 1 of the scenario. -/
def recAlgebra : PopularityRecord :=
  ⟨1, "Algebra", 2, 1, 0, 0, 3, 11, ((11 : ℕ) : ℚ) / ((3 : ℕ) : ℚ)⟩

/-- Expected output record for course 2 of the scenario. -/
def recBiology : PopularityRecord :=
  ⟨2, "Biology", 1, 0, 0, 0, 1, 4, ((4 : ℕ) : ℚ) / ((1 : ℕ) : ℚ)⟩

/-- The analysis of the scenario computes to the two expected records, in
descending `weighted_score` order. -/
theorem analyze_scen_rows :
    (analyze_course_popularity pScen cScen).rows = [recAlgebra, recBiology] :=
  rfl

/-- The Algebra record is in the scenario output. -/
theorem recAlgebra_mem :
    recAlgebra ∈ (analyze_course_popularity pScen cScen).rows := by
  rw [analyze_scen_rows]
  exact List.mem_cons_self _ _

/-- Witness for C1 at the concrete scenario. -/
theorem spec_C1_witness :
    recAlgebra.weighted_score = 4 * recAlgebra.pref_1 + 3 * recAlgebra.pref_2
        + 2 * recAlgebra.pref_3 + 1 * recAlgebra.pref_4
    ∧ recAlgebra.total_mentions = recAlgebra.pref_1 + recAlgebra.pref_2
        + recAlgebra.pref_3 + recAlgebra.pref_4
    ∧ recAlgebra.pref_1 = mentionCount pScen 1 recAlgebra.course_id
    ∧ recAlgebra.pref_2 = mentionCount pScen 2 recAlgebra.course_id
    ∧ recAlgebra.pref_3 = mentionCount pScen 3 recAlgebra.course_id
    ∧ recAlgebra.pref_4 = mentionCount pScen 4 recAlgebra.course_id :=
  spec_C1 pScen cScen recAlgebra recAlgebra_mem

/-- Witness for C3 at the concrete scenario. -/
theorem spec_C3_witness :
    1 ≤ recAlgebra.total_mentions
    ∧ recAlgebra.course_id ∈ cScen.map CourseRow.CourseID :=
  (spec_C3 pScen cScen).2 recAlgebra recAlgebra_mem

/-- Witness for C7 at the concrete scenario. -/
theorem spec_C7_witness :
    0 < recAlgebra.total_mentions
    ∧ recAlgebra.avg_pref =
        (recAlgebra.weighted_score : ℚ) / (recAlgebra.total_mentions : ℚ) :=
  spec_C7 pScen cScen recAlgebra recAlgebra_mem

/-- Preference table mentioning only an unknown course identifier. -/
def pZero : PreferenceTable := [⟨"kurz1", [some 5, none]⟩]

/-- Witness for C8: no catalog course is mentioned, so the output is the
empty table with the declared schema. -/
theorem spec_C8_witness :
    analyze_course_popularity pZero cScen =
      { columns := popularity_columns, rows := [] } :=
  spec_C8 pZero cScen (by decide)

/-- Witness for C6: each of the four skip behaviours at a concrete input. -/
theorem spec_C6_witness :
    analyze_course_popularity
        ((⟨"kurzX", [some 1]⟩ : PrefColumn) :: pScen) cScen =
      analyze_course_popularity pScen cScen
    ∧ analyze_course_popularity
        ((⟨"kurz7", [some 1]⟩ : PrefColumn) :: pScen) cScen =
      analyze_course_popularity pScen cScen
    ∧ analyze_course_popularity
        ((⟨"name", [some 1]⟩ : PrefColumn) :: pScen) cScen =
      analyze_course_popularity pScen cScen
    ∧ analyze_course_popularity
        ((⟨"kurz1", [some 1, none]⟩ : PrefColumn) :: pScen) cScen =
      analyze_course_popularity
        ((⟨"kurz1", [some 1]⟩ : PrefColumn) :: pScen) cScen :=
  ⟨(spec_C6 [] pScen cScen).1 ⟨"kurzX", [some 1]⟩ (by decide) (by decide),
   (spec_C6 [] pScen cScen).2.1 ⟨"kurz7", [some 1]⟩ 7 (by decide) (by decide),
   (spec_C6 [] pScen cScen).2.2.1 ⟨"name", [some 1]⟩ (by decide),
   (spec_C6 [] pScen cScen).2.2.2 "kurz1" [some 1] []⟩

/-- Witness for C9: an unknown metric errors on a non-empty table, and an
empty table is a no-op. -/
theorem spec_C9_witness :
    plot_course_popularity
        { columns := popularity_columns, rows := [recSample] } "bogus" 3 =
      Except.error (PyError.keyError "bogus")
    ∧ plot_course_popularity
        { columns := popularity_columns, rows := [] } "bogus" 3 =
      Except.ok PlotResult.noData :=
  ⟨(spec_C9 { columns := popularity_columns, rows := [recSample] }
      "bogus" 3).1 rfl (by simp) (by decide),
   (spec_C9 { columns := popularity_columns, rows := [] } "bogus" 3).2 rfl⟩
